import Mathlib

/-!
A shallow embedding of `titanium-web-extension/src/dom.rs`, the DOM-introspection
and interaction layer of the titanium browser extension.  Host (WebKit) objects
are modelled as plain Lean data: an element handle carries the host-exposed
properties the code reads (tag name, capability kind, disabled flag, input type,
inner HTML, computed style, client rectangles, owner document, parent and offset
parent links); documents and windows carry the view metrics and collections the
code queries.  Coordinates reported by the layout engine are modelled as
rationals.  The parent-element and offset-parent links are part of the element
value itself, so ancestor chains are structurally finite, matching the
well-formed acyclic trees the code walks.
-/

namespace Titanium

/-- A computed CSS style declaration (`DOMCSSStyleDeclaration`): the code only
reads the `display`, `visibility` and `opacity` properties. -/
structure Style where
  display : Option String
  visibility : Option String
  opacity : Option String
deriving DecidableEq

/-- `style.get_property_value(prop)`: look up one of the modelled properties. -/
def Style.get_property_value (style : Style) (prop : String) : Option String :=
  if prop = "display" then style.display
  else if prop = "visibility" then style.visibility
  else if prop = "opacity" then style.opacity
  else none

/-- A window handle (`DOMDOMWindow`) as read by the code: scroll offsets and
inner viewport metrics (host integers). -/
structure Window where
  scrollX : Int
  scrollY : Int
  innerWidth : Int
  innerHeight : Int
deriving DecidableEq

/-- The event object returned by `document.create_event("MouseEvents")`;
`isMouseEvent` models whether the later downcast to `DOMMouseEvent` succeeds. -/
structure EventObj where
  isMouseEvent : Bool
deriving DecidableEq

/-- The owner document of an element (`element.get_owner_document()`), with the
two capabilities the code uses: resolving the default view and creating an
event (`create_event("MouseEvents").ok()`, absent on failure). -/
structure OwnerDoc where
  defaultView : Option Window
  createEvent : Option EventObj
deriving DecidableEq

/-- A client rectangle (`DOMClientRect`) with its four edges. -/
structure Rect where
  left : Rat
  right : Rat
  top : Rat
  bottom : Rat
deriving DecidableEq

/-- The capability kinds the code tests with `is::<T>()` / `downcast::<T>()`.
A live element has exactly one most-derived class, so the checks against the
concrete `DOMHTML*Element` classes are modelled by a single kind tag. -/
inductive ElementKind where
  | button
  | inputElement
  | selectElement
  | textarea
  | fieldSet
  | anchor
  | other
deriving DecidableEq

/-- An element handle (`DOMElement`) carrying every host property the code
reads.  `computedStyle` is what `window.get_computed_style(&el, None)` returns
for this element (`none` models an absent style object).  The recursive
`parentElement` / `offsetParent` links make ancestor chains structurally
finite. -/
inductive Element : Type where
  | mk
    (tagName : Option String)
    (kind : ElementKind)
    (disabled : Bool)
    (inputType : Option String)
    (innerHTML : Option String)
    (computedStyle : Option Style)
    (clientRects : Option (List Rect))
    (boundingClientRect : Option Rect)
    (ownerDocument : Option OwnerDoc)
    (parentElement : Option Element)
    (offsetParent : Option Element)

def Element.tagName : Element → Option String
  | .mk t _ _ _ _ _ _ _ _ _ _ => t

def Element.kind : Element → ElementKind
  | .mk _ k _ _ _ _ _ _ _ _ _ => k

def Element.disabled : Element → Bool
  | .mk _ _ d _ _ _ _ _ _ _ _ => d

def Element.inputType : Element → Option String
  | .mk _ _ _ i _ _ _ _ _ _ _ => i

def Element.innerHTML : Element → Option String
  | .mk _ _ _ _ h _ _ _ _ _ _ => h

def Element.computedStyle : Element → Option Style
  | .mk _ _ _ _ _ s _ _ _ _ _ => s

def Element.clientRects : Element → Option (List Rect)
  | .mk _ _ _ _ _ _ r _ _ _ _ => r

def Element.boundingClientRect : Element → Option Rect
  | .mk _ _ _ _ _ _ _ b _ _ _ => b

def Element.ownerDocument : Element → Option OwnerDoc
  | .mk _ _ _ _ _ _ _ _ d _ _ => d

def Element.parentElement : Element → Option Element
  | .mk _ _ _ _ _ _ _ _ _ p _ => p

def Element.offsetParent : Element → Option Element
  | .mk _ _ _ _ _ _ _ _ _ _ o => o

/-- `element.is::<T>()` for the concrete element classes. -/
def elementIs (k : ElementKind) (el : Element) : Bool :=
  el.kind = k

/-- The `return_if_disabled!` macro: the walk in `is_enabled` returns `false`
when the element is of the given class and reports itself disabled (the
downcast after a successful `is::<T>()` check always succeeds). -/
def return_if_disabled (k : ElementKind) (el : Element) : Bool :=
  elementIs k el && el.disabled

/-- The five sequential `return_if_disabled!` early returns of the loop body
of `is_enabled`, composed as one disjunction: some check fires and the
function returns `false`. -/
def any_control_disabled (el : Element) : Bool :=
  return_if_disabled .button el ||
  return_if_disabled .inputElement el ||
  return_if_disabled .selectElement el ||
  return_if_disabled .textarea el ||
  return_if_disabled .fieldSet el

/-- The loop of `is_enabled`: walk the parent-element chain starting at the
element; `break` (→ `true`) at tag name `"BODY"`, `return false` at the first
button/input/select/textarea/fieldset reporting itself disabled, `true` when
the chain is exhausted. -/
def is_enabled_walk : Element → Bool
  | .mk t k d i h s r b o p off =>
    if t = some "BODY" then true
    else if any_control_disabled (.mk t k d i h s r b o p off) then false
    else
      match p with
      | none => true
      | some parent => is_enabled_walk parent

/-- `is_enabled`: an input element is enabled when no enclosing form
control or fieldset up to `BODY` is disabled; other element types return
`true`. -/
def is_enabled (element : Element) : Bool :=
  let is_form_element :=
    elementIs .button element ||
    elementIs .inputElement element ||
    elementIs .selectElement element ||
    elementIs .textarea element
  if is_form_element then is_enabled_walk element
  else true

/-- The loop of `is_hidden`: walk the offset-parent chain starting at the
element; at tag name `"BODY"` return `false`; if the computed style is absent
return `true` (the `unwrap_opt_or_ret!` macro of this repository, modelled
from the spec: absence is handled by returning the conservative default);
if `display` is `"none"`, `visibility` is `"hidden"` or `opacity` is `"0"`,
return `true`; when the chain is exhausted, return `true`. -/
def is_hidden_walk : Element → Bool
  | .mk t _ _ _ _ s _ _ _ _ off =>
    if t = some "BODY" then false
    else
      match s with
      | none => true
      | some style =>
        if style.get_property_value "display" = some "none" ∨
           style.get_property_value "visibility" = some "hidden" ∨
           style.get_property_value "opacity" = some "0" then true
        else
          match off with
          | none => true
          | some q => is_hidden_walk q

/-- A node (`DOMNode`) held by a host node list: either an element or some
other node kind, for which the `downcast::<DOMElement>()` fails. -/
inductive Node where
  | element (el : Element)
  | other

/-- `node.downcast::<DOMElement>().ok()`. -/
def Node.downcastElement : Node → Option Element
  | .element el => some el
  | .other => none

/-- A document handle (`DOMDocument`) as used when passed as an argument:
resolving the default view (`get_default_view()`) and fetching the node list
for a tag-name selector (`get_elements_by_tag_name`). -/
structure Document where
  defaultView : Option Window
  getElementsByTagName : String → Option (List Node)

/-- `is_hidden`: `true` when the document has no default view (conservative
default of `unwrap_opt_or_ret!`, modelled from the spec), otherwise the
offset-parent walk.  The source reads each ancestor's computed style through
`window.get_computed_style(&el, None)`; the model stores that per-element
result in the `computedStyle` field. -/
def is_hidden (document : Document) (element : Element) : Bool :=
  match document.defaultView with
  | none => true
  | some _window => is_hidden_walk element

/-- `element.clone().downcast::<DOMHTMLInputElement>().ok()`. -/
def downcastInputElement (el : Element) : Option Element :=
  if el.kind = ElementKind.inputElement then some el else none

/-- `is_text_input`: the logical input type (defaulting to `"text"` when the
element is not an input element or reports no type) is matched against the
enumerated non-text kinds. -/
def is_text_input (element : Element) : Bool :=
  let input_type := ((downcastInputElement element).bind Element.inputType).getD "text"
  match input_type with
  | "button" | "checkbox" | "color" | "file" | "hidden" | "image" | "radio" | "reset" | "submit" =>
    false
  | _ => true

/-- `is_visible`: `false` without a default view or bounding client rectangle
(`unwrap_opt_or_ret!` defaults, modelled from the spec), otherwise the
rectangle edges are compared against the window's inner metrics. -/
def is_visible (document : Document) (element : Element) : Bool :=
  match document.defaultView with
  | none => false
  | some window =>
    match element.boundingClientRect with
    | none => false
    | some rect =>
      let x1 := rect.left
      let x2 := rect.right
      let y1 := rect.top
      let y2 := rect.bottom
      let height : Rat := (window.innerHeight : Int)
      let width : Rat := (window.innerWidth : Int)
      decide ((x1 ≥ 0 ∨ x2 ≥ 0) ∧ x1 < width ∧ (y1 ≥ 0 ∨ y2 ≥ 0) ∧ y1 < height)

/-- The position value type of the source (`Pos { x: f32, y: f32 }`),
coordinates modelled as rationals. -/
structure Pos where
  x : Rat
  y : Rat
deriving DecidableEq

/-- `get_position`: first client rectangle, then owner document, then default
view (each absence propagates `None` via the `?` operator), then the scroll
offsets are added to the rectangle's left/top. -/
def get_position (element : Element) : Option Pos := do
  let rects ← element.clientRects
  let rect ← rects.get? 0
  let document ← element.ownerDocument
  let window ← document.defaultView
  let scroll_x := window.scrollX
  let scroll_y := window.scrollY
  some { x := rect.left + (scroll_x : Rat), y := rect.top + (scroll_y : Rat) }

/-- The parameters the code passes to `init_mouse_event`: the observable
content of a dispatched synthetic mouse event. -/
structure MouseEventInit where
  eventName : String
  bubbles : Bool
  cancelable : Bool
  view : Window
  detail : Int
  screenX : Int
  screenY : Int
  clientX : Int
  clientY : Int
  ctrlKey : Bool
  altKey : Bool
  shiftKey : Bool
  metaKey : Bool
  button : Int
  relatedTarget : Element

/-- `mouse_event`: resolve the event object from the owner document, then the
window, then downcast the event to a mouse event; any absence or failure
aborts silently (the `wtry_opt_no_ret!` / `wtry_no_show!` macros of this
repository, modelled from the spec: abort the operation, never propagate).
The returned value models the event actually dispatched, `none` meaning no
event fires. -/
def mouse_event (event_name : String) (element : Element) (ctrl_key : Bool) :
    Option MouseEventInit := do
  let event ← element.ownerDocument.bind (fun document => document.createEvent)
  let window ← element.ownerDocument.bind (fun document => document.defaultView)
  if event.isMouseEvent then
    some { eventName := event_name, bubbles := true, cancelable := true, view := window,
           detail := 0, screenX := 0, screenY := 0, clientX := 0, clientY := 0,
           ctrlKey := ctrl_key, altKey := false, shiftKey := false, metaKey := false,
           button := 0, relatedTarget := element }
  else none

/-- `click`: a mouse event named `"click"`, forwarding the ctrl-key flag. -/
def click (element : Element) (ctrl_key : Bool) : Option MouseEventInit :=
  mouse_event "click" element ctrl_key

/-- `mouse_down`: a mouse event named `"mousedown"` with ctrl-key `false`. -/
def mouse_down (element : Element) : Option MouseEventInit :=
  mouse_event "mousedown" element false

/-- `mouse_out`: a mouse event named `"mouseout"` with ctrl-key `false`. -/
def mouse_out (element : Element) : Option MouseEventInit :=
  mouse_event "mouseout" element false

/-- `mouse_over`: a mouse event named `"mouseover"` with ctrl-key `false`. -/
def mouse_over (element : Element) : Option MouseEventInit :=
  mouse_event "mouseover" element false

/-- The iterator state generated by the `iter!` macro: a cursor index and the
optional underlying collection. -/
structure NodeIter where
  index : Nat
  node_list : Option (List Node)

/-- `NodeIter::new`. -/
def NodeIter.new (node_list : Option (List Node)) : NodeIter :=
  { index := 0, node_list := node_list }

/-- `Iterator::next` of the generated iterator: the produced item (if any)
together with the successor iterator state.  An in-range item is fetched and
downcast, the index advancing either way; out of range or with an absent
collection nothing is produced and the state is unchanged. -/
def NodeIter.next (self : NodeIter) : Option Element × NodeIter :=
  match self.node_list with
  | some list =>
    if self.index < list.length then
      let element := list.get? self.index
      (element.bind Node.downcastElement, { self with index := self.index + 1 })
    else (none, self)
  | none => (none, self)

/-- The stream of the first `k` results of repeatedly calling `next`. -/
def NodeIter.outputs : NodeIter → Nat → List (Option Element)
  | _, 0 => []
  | self, k + 1 =>
    let step := self.next
    step.1 :: step.2.outputs k

/-- The `for` loop of `match_pattern`, driven with fuel: Rust `for` ends at
the first `next()` returning no item; an element whose inner HTML matches the
regular expression is returned at once, others are skipped. -/
def match_pattern_loop (regex : String → Bool) : Nat → NodeIter → Option Element
  | 0, _ => none
  | fuel + 1, it =>
    match it.next with
    | (none, _) => none
    | (some element, it2) =>
      match element.innerHTML with
      | some text => if regex text then some element else match_pattern_loop regex fuel it2
      | none => match_pattern_loop regex fuel it2

/-- `match_pattern`: iterate the node list for the tag-name selector and
return the first element whose inner HTML matches the regular expression
(modelled as a string predicate).  The fuel `length + 1` covers every step
the Rust loop can take, since the index strictly increases on each produced
item. -/
def match_pattern (document : Document) (selector : String) (regex : String → Bool) :
    Option Element :=
  let list := document.getElementsByTagName selector
  match_pattern_loop regex ((list.map List.length).getD 0 + 1) (NodeIter.new list)

/-! Spec-side definitions: transcriptions of the specification's words, used to
state the refinement theorems comparing the code's walks against the
first-match-along-a-chain description of the spec. -/

/-- The parent-element chain: the element itself followed by the chain of its
parent element. -/
def parent_chain : Element → List Element
  | .mk t k d i h s r b o p off =>
    .mk t k d i h s r b o p off ::
      (match p with
        | none => []
        | some parent => parent_chain parent)

/-- The offset-parent chain: the element itself followed by the chain of its
offset parent. -/
def offset_chain : Element → List Element
  | .mk t k d i h s r b o p off =>
    .mk t k d i h s r b o p off ::
      (match off with
        | none => []
        | some q => offset_chain q)

/-- Per the spec's words: an element of one of the five kinds
button/input/select/textarea/fieldset that reports itself disabled. -/
def is_disabling (el : Element) : Bool :=
  decide (el.kind = ElementKind.button ∨ el.kind = ElementKind.inputElement ∨
          el.kind = ElementKind.selectElement ∨ el.kind = ElementKind.textarea ∨
          el.kind = ElementKind.fieldSet) && el.disabled

/-- Per the spec's words: a form-control kind (button/input/select/textarea). -/
def is_form_control (el : Element) : Bool :=
  decide (el.kind = ElementKind.button ∨ el.kind = ElementKind.inputElement ∨
          el.kind = ElementKind.selectElement ∨ el.kind = ElementKind.textarea)

/-- Per the spec's words: a walk step at which the enablement walk exits —
the element is tagged `"BODY"` or is disabling. -/
def enabled_stop (el : Element) : Bool :=
  decide (el.tagName = some "BODY") || is_disabling el

/-- Enablement in the spec's words: a non-form-control is enabled; a form
control is enabled exactly when the first element along the parent chain that
is either tagged `"BODY"` or disabling is tagged `"BODY"` (or no such element
exists). -/
def is_enabled_spec (element : Element) : Bool :=
  if is_form_control element then
    match (parent_chain element).find? enabled_stop with
    | some el => decide (el.tagName = some "BODY")
    | none => true
  else true

/-- Per the spec's words: the element's computed style is absent, or shows
`display: none`, `visibility: hidden` or `opacity: 0` (string-exact). -/
def style_absent_or_hides (el : Element) : Bool :=
  match el.computedStyle with
  | none => true
  | some style =>
    decide (style.get_property_value "display" = some "none" ∨
            style.get_property_value "visibility" = some "hidden" ∨
            style.get_property_value "opacity" = some "0")

/-- Per the spec's words: a walk step at which the hidden walk exits — the
element is tagged `"BODY"` or its computed style is absent or hiding. -/
def hidden_stop (el : Element) : Bool :=
  decide (el.tagName = some "BODY") || style_absent_or_hides el

/-- Hiddenness in the spec's words: hidden when there is no default view;
otherwise look for the first element along the offset-parent chain that is
tagged `"BODY"` or has an absent/hiding style: not hidden when it is the
`"BODY"`, hidden when it hides, hidden when there is no such element. -/
def is_hidden_spec (document : Document) (element : Element) : Bool :=
  match document.defaultView with
  | none => true
  | some _ =>
    match (offset_chain element).find? hidden_stop with
    | some el => !decide (el.tagName = some "BODY")
    | none => true

/-- Per the spec's words: the element's inner markup exists and matches the
regular expression. -/
def inner_html_matches (regex : String → Bool) (el : Element) : Bool :=
  match el.innerHTML with
  | some text => regex text
  | none => false

/-- Per the spec's words: the logical input type — the type reported by an
input element, defaulting to `"text"` when the element is not an input
element or reports no type. -/
def logical_input_type (element : Element) : String :=
  ((downcastInputElement element).bind Element.inputType).getD "text"

/-! Helper lemmas. -/

theorem any_control_disabled_eq (el : Element) :
    any_control_disabled el = is_disabling el := by
  cases el with
  | mk t k d i h s r b o p off =>
    cases k <;> cases d <;>
      simp [any_control_disabled, return_if_disabled, elementIs, is_disabling,
        Element.kind, Element.disabled]

theorem is_enabled_walk_eq_find (el : Element) :
    is_enabled_walk el =
      (match (parent_chain el).find? enabled_stop with
        | some x => decide (x.tagName = some "BODY")
        | none => true) := by
  induction el using is_enabled_walk.induct with
  | case1 k d i h s r b o p off =>
    rw [is_enabled_walk.eq_def, parent_chain.eq_def, List.find?_cons]
    simp [enabled_stop, Element.tagName]
  | case2 t k d i h s r b o p off hbody hdis =>
    rw [is_enabled_walk.eq_def, parent_chain.eq_def, List.find?_cons]
    rw [any_control_disabled_eq] at hdis
    have hstop : enabled_stop (Element.mk t k d i h s r b o p off) = true := by
      simp [enabled_stop, hdis]
    simp [hstop, Element.tagName, hbody, any_control_disabled_eq, hdis]
  | case3 t k d i h s r b o off hbody hdis =>
    rw [is_enabled_walk.eq_def, parent_chain.eq_def, List.find?_cons]
    rw [any_control_disabled_eq] at hdis
    have hstop : enabled_stop (Element.mk t k d i h s r b o none off) = false := by
      simp [enabled_stop, Element.tagName, hbody, hdis]
    simp [hstop, hbody, any_control_disabled_eq, hdis]
  | case4 t k d i h s r b o off hbody parent hdis ih =>
    rw [is_enabled_walk.eq_def, parent_chain.eq_def, List.find?_cons]
    rw [any_control_disabled_eq] at hdis
    have hstop :
        enabled_stop (Element.mk t k d i h s r b o (some parent) off) = false := by
      simp [enabled_stop, Element.tagName, hbody, hdis]
    simp [hstop, hbody, any_control_disabled_eq, hdis, ih]

theorem is_form_control_eq (el : Element) :
    (elementIs .button el || elementIs .inputElement el ||
        elementIs .selectElement el || elementIs .textarea el) = is_form_control el := by
  cases el with
  | mk t k d i h s r b o p off =>
    cases k <;> simp [elementIs, is_form_control, Element.kind]

/-- C1: `is_enabled` returns true for every element that is not a button,
input, select, or textarea; for a form control it walks the parent-element
chain starting at the element itself, returning true as soon as an element
tagged exactly `"BODY"` is reached, false as soon as a
button/input/select/textarea/fieldset reports itself disabled, and true when
the chain is exhausted — i.e. it agrees with the spec's first-match
description `is_enabled_spec` on every element. -/
theorem is_enabled_correct (element : Element) :
    is_enabled element = is_enabled_spec element := by
  rw [is_enabled, is_enabled_spec, is_form_control_eq]
  by_cases hfc : is_form_control element = true
  · simp [hfc, is_enabled_walk_eq_find]
  · simp [hfc]

theorem is_hidden_walk_eq_find (el : Element) :
    is_hidden_walk el =
      (match (offset_chain el).find? hidden_stop with
        | some x => !decide (x.tagName = some "BODY")
        | none => true) := by
  induction el using is_hidden_walk.induct with
  | case1 k d i h r b o p off =>
    rw [is_hidden_walk.eq_def, offset_chain.eq_def, List.find?_cons]
    simp [hidden_stop, Element.tagName]
  | case2 t k d i h r b o p off hbody =>
    rw [is_hidden_walk.eq_def, offset_chain.eq_def, List.find?_cons]
    have hstop : hidden_stop (Element.mk t k d i h none r b o p off) = true := by
      simp [hidden_stop, style_absent_or_hides, Element.computedStyle]
    simp [hstop, Element.tagName, hbody]
  | case3 t k d i h r b o p off hbody style hstyle =>
    rw [is_hidden_walk.eq_def, offset_chain.eq_def, List.find?_cons]
    have hstop : hidden_stop (Element.mk t k d i h (some style) r b o p off) = true := by
      simp [hidden_stop, style_absent_or_hides, Element.computedStyle, hstyle]
    simp [hstop, Element.tagName, hbody, hstyle]
  | case4 t k d i h r b o p hbody style hstyle =>
    rw [is_hidden_walk.eq_def, offset_chain.eq_def, List.find?_cons]
    have hstop : hidden_stop (Element.mk t k d i h (some style) r b o p none) = false := by
      simp [hidden_stop, style_absent_or_hides, Element.computedStyle, Element.tagName,
        hbody, hstyle]
    simp [hstop, hbody, hstyle]
  | case5 t k d i h r b o p hbody style hstyle parent ih =>
    rw [is_hidden_walk.eq_def, offset_chain.eq_def, List.find?_cons]
    have hstop :
        hidden_stop (Element.mk t k d i h (some style) r b o p (some parent)) = false := by
      simp [hidden_stop, style_absent_or_hides, Element.computedStyle, Element.tagName,
        hbody, hstyle]
    simp [hstop, hbody, hstyle, ih]

/-- C2: `is_hidden` returns true when the document has no default view;
otherwise it walks the offset-parent chain starting at the element, returning
false on reaching a `"BODY"`-tagged element, true at the first element whose
computed style is absent or has `display: none`, `visibility: hidden` or
`opacity: "0"`, and true when the chain is exhausted without reaching
`"BODY"` — i.e. it agrees with the spec's first-match description
`is_hidden_spec` on every document and element. -/
theorem is_hidden_correct (document : Document) (element : Element) :
    is_hidden document element = is_hidden_spec document element := by
  rw [is_hidden, is_hidden_spec]
  cases document.defaultView with
  | none => rfl
  | some w => simpa using is_hidden_walk_eq_find element

/-- C10: at every step of the hidden-walk, the tag-name check precedes the
style check: an element tagged `"BODY"` makes `is_hidden_walk` return false
whatever its computed style holds, and hence `is_hidden` reports any
`"BODY"`-tagged element (the queried element included) as not hidden whenever
the document has a default view — even when that element's own computed
`display` is `"none"`. -/
theorem is_hidden_body_tag_short_circuit :
    (∀ el : Element, el.tagName = some "BODY" → is_hidden_walk el = false) ∧
      (∀ (document : Document) (el : Element) (w : Window),
        document.defaultView = some w → el.tagName = some "BODY" →
          is_hidden document el = false) := by
  constructor
  · intro el hbody
    cases el with
    | mk t k d i h s r b o p off =>
      rw [is_hidden_walk.eq_def]
      simp [Element.tagName] at hbody
      simp [hbody]
  · intro document el w hview hbody
    rw [is_hidden]
    cases el with
    | mk t k d i h s r b o p off =>
      rw [hview, is_hidden_walk.eq_def]
      simp [Element.tagName] at hbody
      simp [hbody]

/-- C10 witness: a `"BODY"`-tagged element whose own computed style is
`display: none` is still reported not hidden. -/
theorem is_hidden_body_tag_short_circuit_witness :
    is_hidden ⟨some ⟨0, 0, 0, 0⟩, fun _ => none⟩
      (Element.mk (some "BODY") ElementKind.other false none none
        (some ⟨some "none", none, none⟩) none none none none none) = false :=
  is_hidden_body_tag_short_circuit.2 ⟨some ⟨0, 0, 0, 0⟩, fun _ => none⟩
    (Element.mk (some "BODY") ElementKind.other false none none
      (some ⟨some "none", none, none⟩) none none none none none)
    ⟨0, 0, 0, 0⟩ rfl rfl

/-- C3: `is_visible` returns false when the default view or the bounding
client rectangle is absent; otherwise it is true exactly when
(left ≥ 0 or right ≥ 0) and left < inner width and (top ≥ 0 or bottom ≥ 0)
and top < inner height. -/
theorem is_visible_characterization (document : Document) (element : Element) :
    (document.defaultView = none → is_visible document element = false) ∧
      (element.boundingClientRect = none → is_visible document element = false) ∧
      ∀ (w : Window) (r : Rect), document.defaultView = some w →
        element.boundingClientRect = some r →
        (is_visible document element = true ↔
          ((r.left ≥ 0 ∨ r.right ≥ 0) ∧ r.left < (w.innerWidth : Rat) ∧
            (r.top ≥ 0 ∨ r.bottom ≥ 0) ∧ r.top < (w.innerHeight : Rat))) := by
  refine ⟨?_, ?_, ?_⟩
  · intro hview
    simp [is_visible, hview]
  · intro hrect
    cases hview : document.defaultView with
    | none => simp [is_visible, hview]
    | some w => simp [is_visible, hview, hrect]
  · intro w r hview hrect
    simp [is_visible, hview, hrect]

/-- C3 witness: a 10×10 rectangle at (5, 5) inside a 100×100 viewport is
visible. -/
theorem is_visible_characterization_witness :
    is_visible ⟨some ⟨0, 0, 100, 100⟩, fun _ => none⟩
      (Element.mk none ElementKind.other false none none none none
        (some ⟨5, 15, 5, 15⟩) none none none) = true :=
  ((is_visible_characterization ⟨some ⟨0, 0, 100, 100⟩, fun _ => none⟩
      (Element.mk none ElementKind.other false none none none none
        (some ⟨5, 15, 5, 15⟩) none none none)).2.2
    ⟨0, 0, 100, 100⟩ ⟨5, 15, 5, 15⟩ rfl rfl).mpr
    (by norm_num)

/-- C6: `get_position` returns `none` when the first client rectangle, the
owner document or its default view is absent, and otherwise the rectangle's
left/top shifted by the window's scroll offsets. -/
theorem get_position_characterization (element : Element) :
    (element.clientRects = none → get_position element = none) ∧
      (∀ rects, element.clientRects = some rects → rects.get? 0 = none →
        get_position element = none) ∧
      (element.ownerDocument = none → get_position element = none) ∧
      (∀ d, element.ownerDocument = some d → d.defaultView = none →
        get_position element = none) ∧
      ∀ rects r d w, element.clientRects = some rects → rects.get? 0 = some r →
        element.ownerDocument = some d → d.defaultView = some w →
        get_position element =
          some ⟨r.left + (w.scrollX : Rat), r.top + (w.scrollY : Rat)⟩ := by
  refine ⟨?_, ?_, ?_, ?_, ?_⟩
  · intro hcr
    simp [get_position, hcr]
  · intro rects hcr hr0
    rw [List.get?_eq_getElem?] at hr0
    simp [get_position, hcr, hr0]
  · intro hod
    cases hcr : element.clientRects with
    | none => simp [get_position, hcr]
    | some rects =>
      cases hr0 : rects[0]? with
      | none => simp [get_position, hcr, hr0]
      | some r => simp [get_position, hcr, hr0, hod]
  · intro d hod hview
    cases hcr : element.clientRects with
    | none => simp [get_position, hcr]
    | some rects =>
      cases hr0 : rects[0]? with
      | none => simp [get_position, hcr, hr0]
      | some r => simp [get_position, hcr, hr0, hod, hview]
  · intro rects r d w hcr hr0 hod hview
    rw [List.get?_eq_getElem?] at hr0
    simp [get_position, hcr, hr0, hod, hview]

/-- C6 witness: a rectangle with left 50 and top 30 under scroll offsets
(100, 20) yields the position (150, 50). -/
theorem get_position_characterization_witness :
    get_position
      (Element.mk none ElementKind.other false none none none
        (some [⟨50, 60, 30, 40⟩]) none (some ⟨some ⟨100, 20, 0, 0⟩, none⟩)
        none none) = some ⟨150, 50⟩ := by
  have h :=
    (get_position_characterization
      (Element.mk none ElementKind.other false none none none
        (some [⟨50, 60, 30, 40⟩]) none (some ⟨some ⟨100, 20, 0, 0⟩, none⟩)
        none none)).2.2.2.2
      [⟨50, 60, 30, 40⟩] ⟨50, 60, 30, 40⟩ ⟨some ⟨100, 20, 0, 0⟩, none⟩
      ⟨100, 20, 0, 0⟩ rfl rfl rfl rfl
  rw [h]
  norm_num

/-- C7: `is_text_input` is false exactly when the logical input type — the
reported type of an input element, `"text"` otherwise — is one of the nine
enumerated non-text kinds, and in particular true whenever the element is not
an input element or reports no type. -/
theorem is_text_input_characterization (element : Element) :
    (is_text_input element = false ↔
        logical_input_type element ∈
          ["button", "checkbox", "color", "file", "hidden", "image", "radio",
            "reset", "submit"]) ∧
      (element.kind ≠ ElementKind.inputElement → is_text_input element = true) ∧
      (element.inputType = none → is_text_input element = true) := by
  refine ⟨?_, ?_, ?_⟩
  · rw [is_text_input, logical_input_type]
    split
    all_goals simp_all
  · intro hk
    rw [is_text_input]
    simp [downcastInputElement, hk]
  · intro hi
    rw [is_text_input]
    cases hk : element.kind <;> simp [downcastInputElement, hk, hi]

/-- C7 witness: an input element of type `"search"` is a text input, one of
type `"checkbox"` is not, and a non-input element is a text input. -/
theorem is_text_input_characterization_witness :
    is_text_input (Element.mk none ElementKind.inputElement false (some "checkbox")
        none none none none none none none) = false ∧
      is_text_input (Element.mk none ElementKind.anchor false none
        none none none none none none none) = true := by
  constructor
  · exact (is_text_input_characterization
      (Element.mk none ElementKind.inputElement false (some "checkbox")
        none none none none none none none)).1.mpr (by decide)
  · exact (is_text_input_characterization
      (Element.mk none ElementKind.anchor false none
        none none none none none none none)).2.1 (by decide)

/-- C8: `mouse_event` dispatches nothing — the result is `none`, with no
fault and no other observable effect — when the owner document is absent,
event creation fails or the default view is absent. -/
theorem mouse_event_absence (event_name : String) (element : Element) (ctrl_key : Bool) :
    (element.ownerDocument = none → mouse_event event_name element ctrl_key = none) ∧
      (∀ d, element.ownerDocument = some d → d.createEvent = none →
        mouse_event event_name element ctrl_key = none) ∧
      ∀ d, element.ownerDocument = some d → d.defaultView = none →
        mouse_event event_name element ctrl_key = none := by
  refine ⟨?_, ?_, ?_⟩
  · intro hod
    simp [mouse_event, hod]
  · intro d hod hev
    simp [mouse_event, hod, hev]
  · intro d hod hview
    cases hev : d.createEvent with
    | none => simp [mouse_event, hod, hev]
    | some ev => simp [mouse_event, hod, hev, hview]

/-- C8 witness: an element whose owner document has no default view produces
no event. -/
theorem mouse_event_absence_witness :
    mouse_event "click"
      (Element.mk none ElementKind.other false none none none none none
        (some ⟨none, some ⟨true⟩⟩) none none) false = none :=
  (mouse_event_absence "click"
      (Element.mk none ElementKind.other false none none none none none
        (some ⟨none, some ⟨true⟩⟩) none none) false).2.2
    ⟨none, some ⟨true⟩⟩ rfl rfl

/-- C9: a dispatched mouse event has bubbles and cancelable true, the
resolved window as view, zero detail and screen/client coordinates, the
caller's ctrl-key flag, alt/shift/meta false, button 0 and the target element
itself as related target; `click` forwards the caller's ctrl-key flag while
`mouse_down`, `mouse_over` and `mouse_out` pass false, fixing the event names
`"click"`, `"mousedown"`, `"mouseover"`, `"mouseout"`. -/
theorem mouse_event_dispatch (event_name : String) (element : Element) (ctrl_key : Bool)
    (d : OwnerDoc) (ev : EventObj) (w : Window)
    (hod : element.ownerDocument = some d) (hev : d.createEvent = some ev)
    (hmouse : ev.isMouseEvent = true) (hview : d.defaultView = some w) :
    mouse_event event_name element ctrl_key =
        some { eventName := event_name, bubbles := true, cancelable := true, view := w,
               detail := 0, screenX := 0, screenY := 0, clientX := 0, clientY := 0,
               ctrlKey := ctrl_key, altKey := false, shiftKey := false, metaKey := false,
               button := 0, relatedTarget := element } ∧
      click element ctrl_key = mouse_event "click" element ctrl_key ∧
      mouse_down element = mouse_event "mousedown" element false ∧
      mouse_over element = mouse_event "mouseover" element false ∧
      mouse_out element = mouse_event "mouseout" element false := by
  refine ⟨?_, rfl, rfl, rfl, rfl⟩
  simp [mouse_event, hod, hev, hmouse, hview]

/-- C9 witness: a concrete dispatch with ctrl-key true carries all the fixed
event parameters. -/
theorem mouse_event_dispatch_witness :
    mouse_event "click"
      (Element.mk none ElementKind.anchor false none none none none none
        (some ⟨some ⟨0, 0, 0, 0⟩, some ⟨true⟩⟩) none none) true =
      some { eventName := "click", bubbles := true, cancelable := true,
             view := ⟨0, 0, 0, 0⟩, detail := 0, screenX := 0, screenY := 0, clientX := 0,
             clientY := 0, ctrlKey := true, altKey := false, shiftKey := false,
             metaKey := false, button := 0,
             relatedTarget := Element.mk none ElementKind.anchor false none none none
               none none (some ⟨some ⟨0, 0, 0, 0⟩, some ⟨true⟩⟩) none none } :=
  (mouse_event_dispatch "click"
      (Element.mk none ElementKind.anchor false none none none none none
        (some ⟨some ⟨0, 0, 0, 0⟩, some ⟨true⟩⟩) none none) true
      ⟨some ⟨0, 0, 0, 0⟩, some ⟨true⟩⟩ ⟨true⟩ ⟨0, 0, 0, 0⟩ rfl rfl rfl rfl).1

theorem NodeIter.outputs_exhausted (k : Nat) (l : List Node) (i : Nat)
    (hle : l.length ≤ i) :
    NodeIter.outputs ⟨i, some l⟩ k = List.replicate k none := by
  induction k with
  | zero => rfl
  | succ k ih =>
    have hnlt : ¬ i < l.length := by omega
    simp [NodeIter.outputs, NodeIter.next, hnlt, ih, List.replicate_succ]

theorem NodeIter.outputs_absent (k i : Nat) :
    NodeIter.outputs ⟨i, none⟩ k = List.replicate k none := by
  induction k with
  | zero => rfl
  | succ k ih => simp [NodeIter.outputs, NodeIter.next, ih, List.replicate_succ]

theorem NodeIter.outputs_split (post : List Node) :
    ∀ (pre : List Node) (k : Nat),
      NodeIter.outputs ⟨pre.length, some (pre ++ post)⟩ (post.length + k) =
        post.map Node.downcastElement ++ List.replicate k none := by
  induction post with
  | nil =>
    intro pre k
    simpa using NodeIter.outputs_exhausted k pre pre.length le_rfl
  | cons n rest ih =>
    intro pre k
    have hstep : (n :: rest).length + k = (rest.length + k) + 1 := by
      simp [List.length_cons]
      omega
    rw [hstep]
    have hlt : pre.length < (pre ++ n :: rest).length := by simp
    have hget : (pre ++ n :: rest)[pre.length]? = some n := by
      rw [List.getElem?_append_right le_rfl]
      simp
    have hnext : NodeIter.next ⟨pre.length, some (pre ++ n :: rest)⟩ =
        (n.downcastElement, ⟨pre.length + 1, some (pre ++ n :: rest)⟩) := by
      simp [NodeIter.next, hlt, List.get?_eq_getElem?, hget]
    rw [NodeIter.outputs, hnext]
    have hlen : pre.length + 1 = (pre ++ [n]).length := by simp
    have happ : pre ++ n :: rest = (pre ++ [n]) ++ rest := by simp
    rw [hlen, happ, ih (pre ++ [n]) k]
    simp

/-- C4: for a collection of length N the sequence adapter produces exactly the
N items — each the downcast of the node at its index, in index order, a
failing downcast yielding no item at its position without ending the
iteration — and after those N steps every further call produces nothing;
an adapter built from an absent collection produces nothing at all. -/
theorem node_iter_iteration (list : List Node) (k : Nat) :
    NodeIter.outputs (NodeIter.new (some list)) (list.length + k) =
        list.map Node.downcastElement ++ List.replicate k none ∧
      NodeIter.outputs (NodeIter.new none) k = List.replicate k none := by
  constructor
  · simpa using NodeIter.outputs_split list [] k
  · exact NodeIter.outputs_absent k 0

theorem match_pattern_loop_eq (regex : String → Bool) (elems : List Element) :
    ∀ (pre : List Node) (fuel : Nat), elems.length < fuel →
      match_pattern_loop regex fuel
          ⟨pre.length, some (pre ++ elems.map Node.element)⟩ =
        elems.find? (inner_html_matches regex) := by
  induction elems with
  | nil =>
    intro pre fuel hfuel
    obtain ⟨f, rfl⟩ : ∃ f, fuel = f + 1 := ⟨fuel - 1, by omega⟩
    have hnlt : ¬ pre.length < (pre ++ ([] : List Element).map Node.element).length := by
      simp
    rw [match_pattern_loop]
    simp [NodeIter.next, hnlt]
  | cons e rest ih =>
    intro pre fuel hfuel
    obtain ⟨f, rfl⟩ : ∃ f, fuel = f + 1 := ⟨fuel - 1, by omega⟩
    have hf : rest.length < f := by
      simp [List.length_cons] at hfuel
      omega
    have hlt : pre.length < (pre ++ (e :: rest).map Node.element).length := by simp
    have hget : (pre ++ (e :: rest).map Node.element)[pre.length]? =
        some (Node.element e) := by
      rw [List.getElem?_append_right le_rfl]
      simp
    have hnext : NodeIter.next ⟨pre.length, some (pre ++ (e :: rest).map Node.element)⟩ =
        (some e, ⟨pre.length + 1, some (pre ++ (e :: rest).map Node.element)⟩) := by
      simp only [NodeIter.next, List.get?_eq_getElem?]
      rw [if_pos hlt, hget]
      simp [Node.downcastElement]
    have hlen : pre.length + 1 = (pre ++ [Node.element e]).length := by simp
    have happ : pre ++ (e :: rest).map Node.element =
        (pre ++ [Node.element e]) ++ rest.map Node.element := by simp
    have hrec : match_pattern_loop regex f
        (⟨pre.length + 1, some (pre ++ (e :: rest).map Node.element)⟩ : NodeIter) =
        rest.find? (inner_html_matches regex) := by
      have hih := ih (pre ++ [Node.element e]) f hf
      rw [← hlen, ← happ] at hih
      exact hih
    rw [match_pattern_loop, hnext, List.find?_cons]
    cases hh : e.innerHTML with
    | none =>
      have hm : inner_html_matches regex e = false := by
        simp [inner_html_matches, hh]
      rw [hm]
      simp only [hh]
      exact hrec
    | some text =>
      cases hr : regex text with
      | true =>
        have hm : inner_html_matches regex e = true := by
          simp [inner_html_matches, hh, hr]
        rw [hm]
        simp [hh, hr]
      | false =>
        have hm : inner_html_matches regex e = false := by
          simp [inner_html_matches, hh, hr]
        rw [hm]
        simp only [hh, hr]
        simpa using hrec

/-- C5: `match_pattern` scans the elements returned for the tag-name selector
in collection order and returns the first whose inner HTML matches the
regular expression, skipping elements with no inner HTML, and returns `none`
when no element matches or the collection is absent. -/
theorem match_pattern_correct (document : Document) (selector : String)
    (regex : String → Bool) :
    (∀ elems : List Element,
        document.getElementsByTagName selector = some (elems.map Node.element) →
          match_pattern document selector regex =
            elems.find? (inner_html_matches regex)) ∧
      (document.getElementsByTagName selector = none →
        match_pattern document selector regex = none) := by
  constructor
  · intro elems hsel
    rw [match_pattern]
    rw [hsel]
    have hfuel : elems.length < (elems.map Node.element).length + 1 := by simp
    simpa [NodeIter.new] using match_pattern_loop_eq regex elems [] _ hfuel
  · intro hsel
    rw [match_pattern, hsel]
    rfl

/-- C5 witness: over elements with inner markup `"foo"`, `"bar123"`, `"baz"`
and a digit-matching pattern, the second element is returned. -/
theorem match_pattern_correct_witness :
    match_pattern
      ⟨some ⟨0, 0, 0, 0⟩, fun _ => some
        [Node.element (Element.mk none ElementKind.other false none (some "foo")
          none none none none none none),
         Node.element (Element.mk none ElementKind.other false none (some "bar123")
          none none none none none none),
         Node.element (Element.mk none ElementKind.other false none (some "baz")
          none none none none none none)]⟩
      "div" (fun s => s.data.any Char.isDigit) =
      some (Element.mk none ElementKind.other false none (some "bar123")
        none none none none none none) := by
  have h :=
    (match_pattern_correct
      ⟨some ⟨0, 0, 0, 0⟩, fun _ => some
        [Node.element (Element.mk none ElementKind.other false none (some "foo")
          none none none none none none),
         Node.element (Element.mk none ElementKind.other false none (some "bar123")
          none none none none none none),
         Node.element (Element.mk none ElementKind.other false none (some "baz")
          none none none none none none)]⟩
      "div" (fun s => s.data.any Char.isDigit)).1
      [Element.mk none ElementKind.other false none (some "foo")
        none none none none none none,
       Element.mk none ElementKind.other false none (some "bar123")
        none none none none none none,
       Element.mk none ElementKind.other false none (some "baz")
        none none none none none none] rfl
  rw [h]
  rfl

end Titanium
